import Mathlib

set_option maxHeartbeats 1000000

/-
Verification development for the zksync-era state-keeper batch executor
(core/lib/zksync_core/src/state_keeper/batch_executor/mod.rs).

The executor code is embedded shallowly.  The VM (the `vm`/`multivm`
crates), the storage view and the tokio channel primitives are external
collaborators that are not part of the source under verification; they
are modelled from the specification's description of their contracts
(spec sections 4.2, 5 and 6) as an abstract state `σ` carried by a
`VmState`, an oracle of deterministic operations `VmOracle`, and
boolean liveness flags for reply slots.  Panics (`unwrap`, `panic!`,
`unreachable!`, `expect`) are modelled by the `Except PanicReason`
error monad.
-/

namespace BatchExec

/-- Modelled from the spec: halt reasons emitted by the VM (the `Halt` enum of
the external `vm` crate).  The executor distinguishes only `TooBigGasLimit`
and `BootloaderOutOfGas`; every remaining variant of the source enum is
abstracted as `otherReason` with a numeric code. -/
inductive Halt where
  | TooBigGasLimit
  | BootloaderOutOfGas
  | otherReason (code : Nat)
deriving DecidableEq

/-- Modelled from the spec: the tag of a VM execution result (`ExecutionResult`
of the external `vm` crate): success, revert, or halt with a reason.  The
payloads of `Success`/`Revert` are abstracted into
`VmExecutionResultAndLogs.logsAndStats`. -/
inductive ExecutionResult where
  | success
  | revert
  | halt (reason : Halt)
deriving DecidableEq

/-- Modelled from the spec: `ExecutionResult::is_failed` of the external `vm`
crate: a result is failed iff it is a revert or a halt. -/
def ExecutionResult.is_failed : ExecutionResult → Bool
  | ExecutionResult.success => false
  | ExecutionResult.revert => true
  | ExecutionResult.halt _ => true

/-- Modelled from the spec: the VM result-and-logs record
(`VmExecutionResultAndLogs`).  Only the `result` tag is inspected by the
executor; the logs and statistics are abstracted into one numeric field. -/
structure VmExecutionResultAndLogs where
  result : ExecutionResult
  logsAndStats : Nat
deriving DecidableEq

/-- Execution metrics computed per transaction and per block-tip dry run
(`ExecutionMetricsForCriteria` of state_keeper/types.rs).  The numeric
content is abstracted; only the record structure matters to the claims. -/
structure ExecutionMetricsForCriteria where
  l1_gas : Nat
  execution_metrics : Nat
deriving DecidableEq

/-- A transaction as seen by the executor: a gas limit, an L1/L2 origin flag
and an abstract payload standing for everything the VM consumes.
Gas limits are U256 in the source; only order comparisons are performed on
them, so they are embedded as `Nat`. -/
structure Transaction where
  gas_limit : Nat
  is_l1 : Bool
  payload : Nat
deriving DecidableEq

/-- Modelled from the spec: the terminal batch result (`FinishedL1Batch` of the
external `vm` crate).  The executor inspects only the block-tip execution
result inside it; the remaining fields are abstracted. -/
structure FinishedL1Batch where
  block_tip_execution_result : VmExecutionResultAndLogs
  restOfBatchResult : Nat
deriving DecidableEq

/-- Modelled from the spec: the sub-block (miniblock) environment
(`L2BlockEnv`): number, timestamp and the rest abstracted. -/
structure L2BlockEnv where
  number : Nat
  timestamp : Nat
deriving DecidableEq

/-- Modelled from the spec: the witness block state captured from the storage
view at batch finish (read set plus write overlay), abstracted to a number
computed from the storage state by the oracle. -/
abbrev WitnessBlockState := Nat

/-- The reply to an execute-tx command (`TxExecutionResult` of mod.rs).
Compressed bytecodes and call traces are abstracted as lists of numbers. -/
inductive TxExecutionResult where
  | Success (tx_result : VmExecutionResultAndLogs)
      (tx_metrics : ExecutionMetricsForCriteria)
      (bootloader_dry_run_metrics : ExecutionMetricsForCriteria)
      (bootloader_dry_run_result : VmExecutionResultAndLogs)
      (compressed_bytecodes : List Nat)
      (call_tracer_result : List Nat)
  | RejectedByVm (reason : Halt)
  | BootloaderOutOfGasForTx
  | BootloaderOutOfGasForBlockTip
deriving DecidableEq

/-- `TxExecutionResult::err` of mod.rs: the revert reason if the transaction
was rejected or the bootloader ran out of gas. -/
def TxExecutionResult.err : TxExecutionResult → Option Halt
  | TxExecutionResult.Success _ _ _ _ _ _ => none
  | TxExecutionResult.RejectedByVm rejection_reason => some rejection_reason
  | TxExecutionResult.BootloaderOutOfGasForTx => some Halt.BootloaderOutOfGas
  | TxExecutionResult.BootloaderOutOfGasForBlockTip => some Halt.BootloaderOutOfGas

/-- Whether a `TxExecutionResult` is the `Success` variant. -/
def TxExecutionResult.isSuccess : TxExecutionResult → Bool
  | TxExecutionResult.Success _ _ _ _ _ _ => true
  | _ => false

/-- Modelled from the spec: the VM state visible to the executor, section 6:
the mutable engine-plus-storage-view state `storage` (of abstract type `σ`)
together with the LIFO snapshot stack of restorable points. -/
structure VmState (σ : Type) where
  storage : σ
  snapshots : List σ
deriving DecidableEq

/-- Modelled from the spec: `make_snapshot` pushes a restorable point holding
the current state onto the snapshot stack. -/
def VmState.make_snapshot {σ : Type} (vm : VmState σ) : VmState σ :=
  { storage := vm.storage, snapshots := vm.storage :: vm.snapshots }

/-- Modelled from the spec: `rollback_to_the_latest_snapshot` pops the top
snapshot and restores the state to it; on an empty stack the real VM panics,
modelled as `none` (underflow). -/
def VmState.rollback_to_the_latest_snapshot {σ : Type} (vm : VmState σ) :
    Option (VmState σ) :=
  match vm.snapshots with
  | [] => none
  | s :: rest => some { storage := s, snapshots := rest }

/-- Modelled from the spec: `pop_snapshot_no_rollback` discards the top
snapshot without restoring; on an empty stack, underflow (`none`). -/
def VmState.pop_snapshot_no_rollback {σ : Type} (vm : VmState σ) :
    Option (VmState σ) :=
  match vm.snapshots with
  | [] => none
  | _ :: rest => some { storage := vm.storage, snapshots := rest }

/-- The outcome of one `inspect_transaction_with_bytecode_compression` call:
either a result-and-logs with the post-call VM state and the trace the
attached call tracer collected, or a compression failure, which still
mutates the VM state (the failed attempt's side effects, undone only by a
rollback). -/
inductive InspectOutcome (σ : Type) where
  | ok (result : VmExecutionResultAndLogs) (newState : σ) (trace : List Nat)
  | err (newState : σ)
deriving DecidableEq

/-- Modelled from the spec: the deterministic oracle describing the external
VM engine (section 6): transaction inspection with or without bytecode
compression, the compressed bytecodes published by the last transaction,
block-tip execution, terminal batch post-processing, sub-block advancement
and the storage view's witness capture. -/
structure VmOracle (σ : Type) where
  inspectTx : σ → Transaction → Bool → InspectOutcome σ
  getLastTxCompressedBytecodes : σ → List Nat
  executeBlockTip : σ → VmExecutionResultAndLogs × σ
  finishBatchVm : σ → FinishedL1Batch × σ
  startNewL2Block : L2BlockEnv → σ → σ
  witnessBlockState : σ → WitnessBlockState

/-- The reasons the Driver thread can panic, corresponding to the source's
`unwrap`/`expect`/`panic!`/`unreachable!` sites. -/
inductive PanicReason where
  | sendFailed
  | compressionRetryFailed
  | blockTipRevertOrHalt
  | finishBatchFailed
  | snapshotUnderflow
deriving DecidableEq

/-- The configuration of `BatchExecutor` (mod.rs): whether to attach a call
tracer and the per-transaction gas-limit cap.  The command receiver is kept
outside the structure: commands are passed to `run` as an explicit list. -/
structure BatchExecutor where
  save_call_traces : Bool
  max_allowed_tx_gas_limit : Nat
deriving DecidableEq

/-- `get_execution_metrics` of mod.rs: derive metrics from a result, with
`l1_gas` computed from the transaction when one is supplied
(gas_count_from_tx_and_metrics) and from the metrics alone otherwise
(gas_count_from_metrics); both gas_tracker functions are external to the
file and abstracted as deterministic arithmetic on the abstracted fields. -/
def BatchExecutor.get_execution_metrics (tx : Option Transaction)
    (execution_result : VmExecutionResultAndLogs) : ExecutionMetricsForCriteria :=
  match tx with
  | some t =>
    { l1_gas := t.gas_limit + execution_result.logsAndStats
      execution_metrics := execution_result.logsAndStats }
  | none =>
    { l1_gas := execution_result.logsAndStats
      execution_metrics := execution_result.logsAndStats }

/-- `execute_tx_in_vm` of mod.rs: push the inner snapshot, try the
transaction with bytecode compression; on success pop the snapshot without
rollback and return the result, the published compressed bytecodes and the
trace; on compression failure roll back to the inner snapshot and re-invoke
with compression disabled, a failure of which is a panic (`expect`). -/
def BatchExecutor.execute_tx_in_vm {σ : Type} (e : BatchExecutor) (O : VmOracle σ)
    (tx : Transaction) (vm : VmState σ) :
    Except PanicReason ((VmExecutionResultAndLogs × List Nat × List Nat) × VmState σ) :=
  let vm1 := vm.make_snapshot
  match O.inspectTx vm1.storage tx true with
  | InspectOutcome.ok result s2 trace =>
    let vm2 : VmState σ := { storage := s2, snapshots := vm1.snapshots }
    let compressed_bytecodes := O.getLastTxCompressedBytecodes s2
    match vm2.pop_snapshot_no_rollback with
    | none => Except.error PanicReason.snapshotUnderflow
    | some vm3 =>
      Except.ok ((result, compressed_bytecodes,
        if e.save_call_traces then trace else []), vm3)
  | InspectOutcome.err s2 =>
    let vm2 : VmState σ := { storage := s2, snapshots := vm1.snapshots }
    match vm2.rollback_to_the_latest_snapshot with
    | none => Except.error PanicReason.snapshotUnderflow
    | some vm3 =>
      match O.inspectTx vm3.storage tx false with
      | InspectOutcome.err _ => Except.error PanicReason.compressionRetryFailed
      | InspectOutcome.ok result s4 trace =>
        let vm4 : VmState σ := { storage := s4, snapshots := vm3.snapshots }
        let compressed_bytecodes := O.getLastTxCompressedBytecodes s4
        Except.ok ((result, compressed_bytecodes,
          if e.save_call_traces then trace else []), vm4)

/-- Spec-side comparison run for compression-retry invisibility (spec P3):
an independent run of `execute_tx_in_vm` with compression disabled from the
start — the success branch of the source function with the compression flag
set to false. -/
def BatchExecutor.execute_tx_in_vm_no_compression {σ : Type} (e : BatchExecutor)
    (O : VmOracle σ) (tx : Transaction) (vm : VmState σ) :
    Except PanicReason ((VmExecutionResultAndLogs × List Nat × List Nat) × VmState σ) :=
  let vm1 := vm.make_snapshot
  match O.inspectTx vm1.storage tx false with
  | InspectOutcome.err _ => Except.error PanicReason.compressionRetryFailed
  | InspectOutcome.ok result s2 trace =>
    let vm2 : VmState σ := { storage := s2, snapshots := vm1.snapshots }
    let compressed_bytecodes := O.getLastTxCompressedBytecodes s2
    match vm2.pop_snapshot_no_rollback with
    | none => Except.error PanicReason.snapshotUnderflow
    | some vm3 =>
      Except.ok ((result, compressed_bytecodes,
        if e.save_call_traces then trace else []), vm3)

/-- `dryrun_block_tip` of mod.rs: push a snapshot, execute the block tip,
compute metrics, and roll back to the snapshot, returning the block-tip
result and its metrics. -/
def BatchExecutor.dryrun_block_tip {σ : Type} (O : VmOracle σ) (vm : VmState σ) :
    Except PanicReason ((VmExecutionResultAndLogs × ExecutionMetricsForCriteria) × VmState σ) :=
  let vm1 := vm.make_snapshot
  let block_tip_result := (O.executeBlockTip vm1.storage).1
  let vm2 : VmState σ :=
    { storage := (O.executeBlockTip vm1.storage).2, snapshots := vm1.snapshots }
  let m := BatchExecutor.get_execution_metrics none block_tip_result
  match vm2.rollback_to_the_latest_snapshot with
  | none => Except.error PanicReason.snapshotUnderflow
  | some vm3 => Except.ok ((block_tip_result, m), vm3)

/-- The block-tip dry-run phase of `execute_tx` of mod.rs (the straight-line
continuation executed when the transaction result is not a halt, lines
387-410): compute the transaction metrics, dry-run the block tip, and
classify its outcome — success yields `Success`, a bootloader-out-of-gas
halt yields `BootloaderOutOfGasForBlockTip`, and a revert or any other halt
is a panic (`unreachable`/`panic`). -/
def BatchExecutor.executeTxDryRunPhase {σ : Type} (e : BatchExecutor) (O : VmOracle σ)
    (tx : Transaction) (tx_result : VmExecutionResultAndLogs)
    (compressed_bytecodes : List Nat) (call_tracer_result : List Nat)
    (vm : VmState σ) : Except PanicReason (TxExecutionResult × VmState σ) :=
  let tx_metrics := BatchExecutor.get_execution_metrics (some tx) tx_result
  match BatchExecutor.dryrun_block_tip O vm with
  | Except.error r => Except.error r
  | Except.ok ((bootloader_dry_run_result, bootloader_dry_run_metrics), vm1) =>
    match bootloader_dry_run_result.result with
    | ExecutionResult.success =>
      Except.ok (TxExecutionResult.Success tx_result tx_metrics
        bootloader_dry_run_metrics bootloader_dry_run_result
        compressed_bytecodes call_tracer_result, vm1)
    | ExecutionResult.revert => Except.error PanicReason.blockTipRevertOrHalt
    | ExecutionResult.halt Halt.BootloaderOutOfGas =>
      Except.ok (TxExecutionResult.BootloaderOutOfGasForBlockTip, vm1)
    | ExecutionResult.halt _ => Except.error PanicReason.blockTipRevertOrHalt

/-- `execute_tx` of mod.rs: push the outer snapshot, reject the transaction
if its gas limit exceeds the configured maximum, otherwise run it in the VM,
map a halt to `BootloaderOutOfGasForTx` or `RejectedByVm`, and for a
non-halt result proceed to the block-tip dry-run phase. -/
def BatchExecutor.execute_tx {σ : Type} (e : BatchExecutor) (O : VmOracle σ)
    (tx : Transaction) (vm : VmState σ) :
    Except PanicReason (TxExecutionResult × VmState σ) :=
  let vm1 := vm.make_snapshot
  if tx.gas_limit > e.max_allowed_tx_gas_limit then
    Except.ok (TxExecutionResult.RejectedByVm Halt.TooBigGasLimit, vm1)
  else
    match e.execute_tx_in_vm O tx vm1 with
    | Except.error r => Except.error r
    | Except.ok ((tx_result, compressed_bytecodes, call_tracer_result), vm2) =>
      match tx_result.result with
      | ExecutionResult.halt Halt.BootloaderOutOfGas =>
        Except.ok (TxExecutionResult.BootloaderOutOfGasForTx, vm2)
      | ExecutionResult.halt reason =>
        Except.ok (TxExecutionResult.RejectedByVm reason, vm2)
      | _ =>
        e.executeTxDryRunPhase O tx tx_result compressed_bytecodes
          call_tracer_result vm2

/-- `rollback_last_tx` of mod.rs: roll back to the latest snapshot; an empty
stack is a VM panic (underflow). -/
def BatchExecutor.rollback_last_tx {σ : Type} (vm : VmState σ) :
    Except PanicReason (VmState σ) :=
  match vm.rollback_to_the_latest_snapshot with
  | none => Except.error PanicReason.snapshotUnderflow
  | some vm1 => Except.ok vm1

/-- `start_next_miniblock` of mod.rs: advance the VM's sub-block state; no
snapshot interaction. -/
def BatchExecutor.start_next_miniblock {σ : Type} (O : VmOracle σ)
    (l2_block_env : L2BlockEnv) (vm : VmState σ) : VmState σ :=
  { storage := O.startNewL2Block l2_block_env vm.storage, snapshots := vm.snapshots }

/-- `finish_batch` of mod.rs: run the VM's terminal batch post-processing and
panic if the block-tip execution result inside the batch result is failed. -/
def BatchExecutor.finish_batch {σ : Type} (O : VmOracle σ) (vm : VmState σ) :
    Except PanicReason (FinishedL1Batch × VmState σ) :=
  let result := (O.finishBatchVm vm.storage).1
  let vm1 : VmState σ :=
    { storage := (O.finishBatchVm vm.storage).2, snapshots := vm.snapshots }
  if result.block_tip_execution_result.result.is_failed then
    Except.error PanicReason.finishBatchFailed
  else
    Except.ok (result, vm1)

/-- The `Command` enum of mod.rs.  Each command carries a single-use reply
slot; the slot is modelled from the spec (tokio oneshot semantics) by the
boolean `receiverAlive`: a send into the slot succeeds iff the receiving
end has not been dropped, and the Driver unwraps the send result. -/
inductive Command where
  | ExecuteTx (tx : Transaction) (receiverAlive : Bool)
  | StartNextMiniblock (env : L2BlockEnv) (receiverAlive : Bool)
  | RollbackLastTx (receiverAlive : Bool)
  | FinishBatch (receiverAlive : Bool)
deriving DecidableEq

/-- Whether a command is the finish-batch command. -/
def Command.isFinish : Command → Bool
  | Command.FinishBatch _ => true
  | _ => false

/-- A reply the Driver sends into a command's reply slot. -/
inductive Reply where
  | txResult (r : TxExecutionResult)
  | ack
  | finished (r : FinishedL1Batch) (w : Option WitnessBlockState)
deriving DecidableEq

/-- How the Driver loop ends: by processing a finish-batch command, by the
command channel closing first (clean exit with the unfinished-batch log), or
by a panic of the worker thread. -/
inductive ExitStatus where
  | finishedBatch
  | unfinishedExit
  | panicked (r : PanicReason)
deriving DecidableEq

/-- Whether an exit status is a panic. -/
def ExitStatus.isPanicked : ExitStatus → Bool
  | ExitStatus.panicked _ => true
  | _ => false

/-- `run` of mod.rs, the Driver loop: receive commands one at a time, handle
each to completion, unwrap the reply-slot send, and return after the
finish-batch command; the incoming command stream is embedded as the finite
list of commands received before the channel closes, so reaching the end of
the list is the channel closing (`blocking_recv` returning `None`).
Returns the replies sent, how the loop ended, and the final VM state. -/
def BatchExecutor.run {σ : Type} (e : BatchExecutor) (O : VmOracle σ)
    (upload_witness_inputs_to_gcs : Bool) :
    List Command → VmState σ → List Reply × ExitStatus × VmState σ
  | [], vm => ([], ExitStatus.unfinishedExit, vm)
  | Command.ExecuteTx tx alive :: rest, vm =>
    match e.execute_tx O tx vm with
    | Except.error r => ([], ExitStatus.panicked r, vm)
    | Except.ok (result, vm1) =>
      if alive then
        let out := e.run O upload_witness_inputs_to_gcs rest vm1
        (Reply.txResult result :: out.1, out.2.1, out.2.2)
      else ([], ExitStatus.panicked PanicReason.sendFailed, vm1)
  | Command.RollbackLastTx alive :: rest, vm =>
    match BatchExecutor.rollback_last_tx vm with
    | Except.error r => ([], ExitStatus.panicked r, vm)
    | Except.ok vm1 =>
      if alive then
        let out := e.run O upload_witness_inputs_to_gcs rest vm1
        (Reply.ack :: out.1, out.2.1, out.2.2)
      else ([], ExitStatus.panicked PanicReason.sendFailed, vm1)
  | Command.StartNextMiniblock l2_block_env alive :: rest, vm =>
    let vm1 := BatchExecutor.start_next_miniblock O l2_block_env vm
    if alive then
      let out := e.run O upload_witness_inputs_to_gcs rest vm1
      (Reply.ack :: out.1, out.2.1, out.2.2)
    else ([], ExitStatus.panicked PanicReason.sendFailed, vm1)
  | Command.FinishBatch alive :: _, vm =>
    match BatchExecutor.finish_batch O vm with
    | Except.error r => ([], ExitStatus.panicked r, vm)
    | Except.ok (vm_block_result, vm1) =>
      let witness_block_state :=
        if upload_witness_inputs_to_gcs then some (O.witnessBlockState vm1.storage)
        else none
      if alive then
        ([Reply.finished vm_block_result witness_block_state],
          ExitStatus.finishedBatch, vm1)
      else ([], ExitStatus.panicked PanicReason.sendFailed, vm1)

/-- Modelled from the spec: the command channel as the Handle sees it; a send
succeeds iff the Driver's receiving end is still alive (tokio mpsc: a send
on a channel whose receiver is dropped fails). -/
structure CommandChannel where
  receiverAlive : Bool
deriving DecidableEq

/-- Modelled from the spec: whether a send on the command channel is
accepted. -/
def CommandChannel.sendOk (ch : CommandChannel) : Bool := ch.receiverAlive

/-- Modelled from the spec: the command channel after `run` has returned;
the Driver's receiver is dropped when the worker thread terminates, for
every exit status. -/
def channelAfterRun (_ : ExitStatus) : CommandChannel :=
  { receiverAlive := false }

/-- Spec-side definition, from the state-machine table of spec section 4.2:
the executor states `Idle` and `Tx-Pending`. -/
inductive SpecExecutorState where
  | idle
  | txPending
deriving DecidableEq

/-- Spec-side definition, from the state-machine table of spec section 4.2:
the executor state after an execute-tx outcome — Success and bootloader OOG
for block tip go to Tx-Pending, Rejected and bootloader OOG for tx go back
to Idle with state untouched. -/
def specStateAfterExecuteTx : TxExecutionResult → SpecExecutorState
  | TxExecutionResult.Success _ _ _ _ _ _ => SpecExecutorState.txPending
  | TxExecutionResult.BootloaderOutOfGasForBlockTip => SpecExecutorState.txPending
  | TxExecutionResult.RejectedByVm _ => SpecExecutorState.idle
  | TxExecutionResult.BootloaderOutOfGasForTx => SpecExecutorState.idle

/-- Spec-side definition, from spec sections 3 and 8 (P1): the snapshot-stack
depth prescribed by an executor state: 0 in Idle, 1 in Tx-Pending. -/
def SpecExecutorState.prescribedDepth : SpecExecutorState → Nat
  | SpecExecutorState.idle => 0
  | SpecExecutorState.txPending => 1

/- Concrete fixtures used by witnesses and counterexamples. -/

/-- A concrete executor configuration: call traces on, gas cap 10000000. -/
def mainExec : BatchExecutor :=
  { save_call_traces := true, max_allowed_tx_gas_limit := 10000000 }

/-- A concrete initial VM state over storage type `Nat`: empty snapshot
stack, storage 0. -/
def vm0 : VmState Nat := { storage := 0, snapshots := [] }

/-- A concrete oracle over storage type `Nat`: inspection with compression
fails on odd payloads (mutating the state), succeeds otherwise; block tip
and batch finalization succeed. -/
def natO : VmOracle Nat :=
  { inspectTx := fun s t withCompression =>
      if withCompression && t.payload % 2 == 1 then
        InspectOutcome.err (s + 17)
      else
        InspectOutcome.ok
          { result := ExecutionResult.success, logsAndStats := s + t.payload }
          (s + t.payload + 1) [t.payload]
    getLastTxCompressedBytecodes := fun s => [s]
    executeBlockTip := fun s =>
      ({ result := ExecutionResult.success, logsAndStats := s }, s + 3)
    finishBatchVm := fun s =>
      ({ block_tip_execution_result :=
           { result := ExecutionResult.success, logsAndStats := s }
         restOfBatchResult := s }, s + 5)
    startNewL2Block := fun _ s => s + 1
    witnessBlockState := fun s => s }

/-- A concrete oracle whose transaction inspection always halts with a
non-bootloader reason, and whose batch finalization fails at the block
tip. -/
def haltO : VmOracle Nat :=
  { inspectTx := fun s _ _ =>
      InspectOutcome.ok
        { result := ExecutionResult.halt (Halt.otherReason 3), logsAndStats := s }
        (s + 1) []
    getLastTxCompressedBytecodes := fun s => [s]
    executeBlockTip := fun s =>
      ({ result := ExecutionResult.halt Halt.BootloaderOutOfGas, logsAndStats := s },
        s + 3)
    finishBatchVm := fun s =>
      ({ block_tip_execution_result :=
           { result := ExecutionResult.revert, logsAndStats := s }
         restOfBatchResult := s }, s + 5)
    startNewL2Block := fun _ s => s + 1
    witnessBlockState := fun s => s }

/-- A concrete transaction whose gas limit exceeds the cap of `mainExec`. -/
def bigTx : Transaction := { gas_limit := 20000000, is_l1 := false, payload := 7 }

/-- A concrete transaction within the gas cap, with even payload, so that
compression succeeds under `natO`. -/
def smallTx : Transaction := { gas_limit := 5, is_l1 := false, payload := 2 }

/-- A concrete transaction within the gas cap, with odd payload, so that
compression fails under `natO`. -/
def oddTx : Transaction := { gas_limit := 5, is_l1 := false, payload := 7 }

/-- A concrete sub-block environment. -/
def env0 : L2BlockEnv := { number := 1, timestamp := 100 }

/- Helper lemmas shared by the claim theorems. -/

/-- The dry run of the block tip always succeeds, returning the block-tip
result computed on the current storage, and restores the VM state exactly:
the snapshot it pushes is consumed by the rollback, and the storage is back
to its pre-dry-run value. -/
theorem dryrun_block_tip_eq {σ : Type} (O : VmOracle σ) (vm : VmState σ) :
    BatchExecutor.dryrun_block_tip O vm =
      Except.ok (((O.executeBlockTip vm.storage).1,
        BatchExecutor.get_execution_metrics none (O.executeBlockTip vm.storage).1),
        vm) := rfl

/-- The gas gate of `execute_tx`: a transaction over the configured gas limit
is rejected with `TooBigGasLimit` for every oracle, after the outer snapshot
has been pushed. -/
theorem execute_tx_gas_gate {σ : Type} (e : BatchExecutor) (O : VmOracle σ)
    (tx : Transaction) (vm : VmState σ)
    (h : tx.gas_limit > e.max_allowed_tx_gas_limit) :
    e.execute_tx O tx vm =
      Except.ok (TxExecutionResult.RejectedByVm Halt.TooBigGasLimit,
        vm.make_snapshot) := by
  simp [BatchExecutor.execute_tx, h]

/-- Characterization of `execute_tx_in_vm` as a case split on the two oracle
calls: the inner snapshot is consumed on both paths, so the snapshot stack
is unchanged on every successful return, and the only reachable panic is the
failed no-compression retry. -/
theorem execute_tx_in_vm_eq {σ : Type} (e : BatchExecutor) (O : VmOracle σ)
    (tx : Transaction) (vm : VmState σ) :
    e.execute_tx_in_vm O tx vm =
      match O.inspectTx vm.storage tx true with
      | InspectOutcome.ok result s2 trace =>
        Except.ok ((result, O.getLastTxCompressedBytecodes s2,
          if e.save_call_traces then trace else []),
          { storage := s2, snapshots := vm.snapshots })
      | InspectOutcome.err _ =>
        match O.inspectTx vm.storage tx false with
        | InspectOutcome.ok result s4 trace =>
          Except.ok ((result, O.getLastTxCompressedBytecodes s4,
            if e.save_call_traces then trace else []),
            { storage := s4, snapshots := vm.snapshots })
        | InspectOutcome.err _ => Except.error PanicReason.compressionRetryFailed := by
  cases h1 : O.inspectTx vm.storage tx true with
  | ok result s2 trace =>
    simp [BatchExecutor.execute_tx_in_vm, VmState.make_snapshot,
      VmState.pop_snapshot_no_rollback, h1]
  | err s2 =>
    cases h2 : O.inspectTx vm.storage tx false <;>
      simp [BatchExecutor.execute_tx_in_vm, VmState.make_snapshot,
        VmState.rollback_to_the_latest_snapshot, h1, h2]

/-- A successful `execute_tx_in_vm` leaves the snapshot stack exactly as it
was on entry. -/
theorem execute_tx_in_vm_ok_snapshots {σ : Type} (e : BatchExecutor)
    (O : VmOracle σ) (tx : Transaction) (vm : VmState σ)
    (t : VmExecutionResultAndLogs × List Nat × List Nat) (vm1 : VmState σ)
    (h : e.execute_tx_in_vm O tx vm = Except.ok (t, vm1)) :
    vm1.snapshots = vm.snapshots := by
  rw [execute_tx_in_vm_eq] at h
  cases h1 : O.inspectTx vm.storage tx true with
  | ok result s2 trace =>
    rw [h1] at h
    simp only [Except.ok.injEq, Prod.mk.injEq] at h
    rw [← h.2]
  | err s2 =>
    rw [h1] at h
    cases h2 : O.inspectTx vm.storage tx false with
    | ok result s4 trace =>
      rw [h2] at h
      simp only [Except.ok.injEq, Prod.mk.injEq] at h
      rw [← h.2]
    | err s4 =>
      rw [h2] at h
      exact absurd h (by simp)

/-- `execute_tx_in_vm` never underflows the snapshot stack. -/
theorem execute_tx_in_vm_ne_underflow {σ : Type} (e : BatchExecutor)
    (O : VmOracle σ) (tx : Transaction) (vm : VmState σ) :
    e.execute_tx_in_vm O tx vm ≠ Except.error PanicReason.snapshotUnderflow := by
  rw [execute_tx_in_vm_eq]
  cases h1 : O.inspectTx vm.storage tx true with
  | ok result s2 trace => simp
  | err s2 =>
    cases h2 : O.inspectTx vm.storage tx false <;> simp

/-- Characterization of the dry-run phase of `execute_tx`: the reply is the
classification of the block-tip result computed on the current storage, and
the VM state is returned unchanged on the non-panicking outcomes. -/
theorem executeTxDryRunPhase_eq {σ : Type} (e : BatchExecutor) (O : VmOracle σ)
    (tx : Transaction) (t : VmExecutionResultAndLogs) (c tr : List Nat)
    (vm : VmState σ) :
    e.executeTxDryRunPhase O tx t c tr vm =
      match (O.executeBlockTip vm.storage).1.result with
      | ExecutionResult.success =>
        Except.ok (TxExecutionResult.Success t
          (BatchExecutor.get_execution_metrics (some tx) t)
          (BatchExecutor.get_execution_metrics none (O.executeBlockTip vm.storage).1)
          (O.executeBlockTip vm.storage).1 c tr, vm)
      | ExecutionResult.revert => Except.error PanicReason.blockTipRevertOrHalt
      | ExecutionResult.halt Halt.BootloaderOutOfGas =>
        Except.ok (TxExecutionResult.BootloaderOutOfGasForBlockTip, vm)
      | ExecutionResult.halt _ => Except.error PanicReason.blockTipRevertOrHalt := by
  simp only [BatchExecutor.executeTxDryRunPhase, dryrun_block_tip_eq]

/-- Characterization of `execute_tx` below the gas gate. -/
theorem execute_tx_eq {σ : Type} (e : BatchExecutor) (O : VmOracle σ)
    (tx : Transaction) (vm : VmState σ)
    (h : ¬tx.gas_limit > e.max_allowed_tx_gas_limit) :
    e.execute_tx O tx vm =
      match e.execute_tx_in_vm O tx vm.make_snapshot with
      | Except.error r => Except.error r
      | Except.ok ((tx_result, compressed_bytecodes, call_tracer_result), vm2) =>
        match tx_result.result with
        | ExecutionResult.halt Halt.BootloaderOutOfGas =>
          Except.ok (TxExecutionResult.BootloaderOutOfGasForTx, vm2)
        | ExecutionResult.halt reason =>
          Except.ok (TxExecutionResult.RejectedByVm reason, vm2)
        | _ =>
          e.executeTxDryRunPhase O tx tx_result compressed_bytecodes
            call_tracer_result vm2 := by
  simp [BatchExecutor.execute_tx, h]

/-- A panic inside `execute_tx_in_vm` propagates out of `execute_tx`. -/
theorem execute_tx_of_in_vm_error {σ : Type} (e : BatchExecutor) (O : VmOracle σ)
    (tx : Transaction) (vm : VmState σ) (r : PanicReason)
    (hg : ¬tx.gas_limit > e.max_allowed_tx_gas_limit)
    (hin : e.execute_tx_in_vm O tx vm.make_snapshot = Except.error r) :
    e.execute_tx O tx vm = Except.error r := by
  rw [execute_tx_eq e O tx vm hg, hin]

/-- A bootloader-out-of-gas halt of the transaction maps to
`BootloaderOutOfGasForTx`. -/
theorem execute_tx_of_halt_oog {σ : Type} (e : BatchExecutor) (O : VmOracle σ)
    (tx : Transaction) (t : VmExecutionResultAndLogs) (c tr : List Nat)
    (vm vm2 : VmState σ)
    (hg : ¬tx.gas_limit > e.max_allowed_tx_gas_limit)
    (hin : e.execute_tx_in_vm O tx vm.make_snapshot = Except.ok ((t, c, tr), vm2))
    (ht : t.result = ExecutionResult.halt Halt.BootloaderOutOfGas) :
    e.execute_tx O tx vm =
      Except.ok (TxExecutionResult.BootloaderOutOfGasForTx, vm2) := by
  rw [execute_tx_eq e O tx vm hg, hin]
  dsimp only
  rw [ht]

/-- A halt of the transaction with any other reason maps to `RejectedByVm`
carrying that reason. -/
theorem execute_tx_of_halt_other {σ : Type} (e : BatchExecutor) (O : VmOracle σ)
    (tx : Transaction) (t : VmExecutionResultAndLogs) (c tr : List Nat)
    (vm vm2 : VmState σ) (reason : Halt)
    (hg : ¬tx.gas_limit > e.max_allowed_tx_gas_limit)
    (hin : e.execute_tx_in_vm O tx vm.make_snapshot = Except.ok ((t, c, tr), vm2))
    (ht : t.result = ExecutionResult.halt reason)
    (hne : reason ≠ Halt.BootloaderOutOfGas) :
    e.execute_tx O tx vm =
      Except.ok (TxExecutionResult.RejectedByVm reason, vm2) := by
  rw [execute_tx_eq e O tx vm hg, hin]
  dsimp only
  rw [ht]
  cases reason with
  | TooBigGasLimit => rfl
  | BootloaderOutOfGas => exact absurd rfl hne
  | otherReason code => rfl

/-- A non-halt transaction result proceeds to the block-tip dry-run phase. -/
theorem execute_tx_of_nonhalt {σ : Type} (e : BatchExecutor) (O : VmOracle σ)
    (tx : Transaction) (t : VmExecutionResultAndLogs) (c tr : List Nat)
    (vm vm2 : VmState σ)
    (hg : ¬tx.gas_limit > e.max_allowed_tx_gas_limit)
    (hin : e.execute_tx_in_vm O tx vm.make_snapshot = Except.ok ((t, c, tr), vm2))
    (ht : t.result = ExecutionResult.success ∨ t.result = ExecutionResult.revert) :
    e.execute_tx O tx vm = e.executeTxDryRunPhase O tx t c tr vm2 := by
  rw [execute_tx_eq e O tx vm hg, hin]
  dsimp only
  rcases ht with h | h <;> rw [h]

/-- A successful block-tip dry run yields the `Success` reply with the VM
state unchanged. -/
theorem dryRunPhase_tip_success {σ : Type} (e : BatchExecutor) (O : VmOracle σ)
    (tx : Transaction) (t : VmExecutionResultAndLogs) (c tr : List Nat)
    (vm2 : VmState σ)
    (htip : (O.executeBlockTip vm2.storage).1.result = ExecutionResult.success) :
    e.executeTxDryRunPhase O tx t c tr vm2 =
      Except.ok (TxExecutionResult.Success t
        (BatchExecutor.get_execution_metrics (some tx) t)
        (BatchExecutor.get_execution_metrics none (O.executeBlockTip vm2.storage).1)
        (O.executeBlockTip vm2.storage).1 c tr, vm2) := by
  rw [executeTxDryRunPhase_eq, htip]

/-- A bootloader-out-of-gas halt of the block-tip dry run yields
`BootloaderOutOfGasForBlockTip` with the VM state unchanged. -/
theorem dryRunPhase_tip_oog {σ : Type} (e : BatchExecutor) (O : VmOracle σ)
    (tx : Transaction) (t : VmExecutionResultAndLogs) (c tr : List Nat)
    (vm2 : VmState σ)
    (htip : (O.executeBlockTip vm2.storage).1.result =
      ExecutionResult.halt Halt.BootloaderOutOfGas) :
    e.executeTxDryRunPhase O tx t c tr vm2 =
      Except.ok (TxExecutionResult.BootloaderOutOfGasForBlockTip, vm2) := by
  rw [executeTxDryRunPhase_eq, htip]

/-- A revert or a non-bootloader halt of the block-tip dry run is a process
abort. -/
theorem dryRunPhase_tip_bad {σ : Type} (e : BatchExecutor) (O : VmOracle σ)
    (tx : Transaction) (t : VmExecutionResultAndLogs) (c tr : List Nat)
    (vm2 : VmState σ)
    (htip : (O.executeBlockTip vm2.storage).1.result = ExecutionResult.revert ∨
      (∃ reason, reason ≠ Halt.BootloaderOutOfGas ∧
        (O.executeBlockTip vm2.storage).1.result = ExecutionResult.halt reason)) :
    e.executeTxDryRunPhase O tx t c tr vm2 =
      Except.error PanicReason.blockTipRevertOrHalt := by
  rw [executeTxDryRunPhase_eq]
  rcases htip with h | ⟨reason, hne, h⟩
  · rw [h]
  · rw [h]
    cases reason with
    | TooBigGasLimit => rfl
    | BootloaderOutOfGas => exact absurd rfl hne
    | otherReason code => rfl

/- Claim theorems. -/

/-- C10: for every `TxExecutionResult`, `err` is `none` iff the value is the
`Success` variant; `RejectedByVm` yields the carried halt reason, and both
bootloader out-of-gas variants yield the `BootloaderOutOfGas` halt. -/
theorem C10_err_characterization (r : TxExecutionResult) :
    (r.err = none ↔ r.isSuccess = true) ∧
    (∀ reason, r = TxExecutionResult.RejectedByVm reason → r.err = some reason) ∧
    ((r = TxExecutionResult.BootloaderOutOfGasForTx ∨
        r = TxExecutionResult.BootloaderOutOfGasForBlockTip) →
      r.err = some Halt.BootloaderOutOfGas) := by
  refine ⟨?_, ?_, ?_⟩ <;>
    cases r <;>
      simp [TxExecutionResult.err, TxExecutionResult.isSuccess]

/-- C10 witness: `err` of the bootloader-OOG-for-tx outcome is the
bootloader-out-of-gas halt. -/
theorem C10_witness :
    TxExecutionResult.BootloaderOutOfGasForTx.err = some Halt.BootloaderOutOfGas :=
  (C10_err_characterization TxExecutionResult.BootloaderOutOfGasForTx).2.2 (Or.inl rfl)

/-- C1 counterexample: on a concrete over-limit transaction the handler does
reply `RejectedByVm TooBigGasLimit` without consulting the VM, but the
snapshot stack is not as it was before the command: the outer snapshot
pushed at handler entry remains on it. -/
theorem C1_counterexample :
    mainExec.execute_tx natO bigTx vm0 =
      Except.ok (TxExecutionResult.RejectedByVm Halt.TooBigGasLimit,
        { storage := 0, snapshots := [0] }) ∧
    ({ storage := 0, snapshots := [0] } : VmState Nat).snapshots ≠ vm0.snapshots :=
  ⟨rfl, by decide⟩

/-- C1 (amended): a transaction whose gas limit exceeds
`max_allowed_tx_gas_limit` is immediately rejected with `TooBigGasLimit`
for every oracle — so no VM execution call can influence the result — and
the storage is untouched, but the snapshot stack gains exactly the one
outer snapshot pushed at handler entry. -/
theorem C1_gas_gate_rejects {σ : Type} (e : BatchExecutor) (O : VmOracle σ)
    (tx : Transaction) (vm : VmState σ)
    (h : tx.gas_limit > e.max_allowed_tx_gas_limit) :
    e.execute_tx O tx vm =
      Except.ok (TxExecutionResult.RejectedByVm Halt.TooBigGasLimit,
        { storage := vm.storage, snapshots := vm.storage :: vm.snapshots }) :=
  execute_tx_gas_gate e O tx vm h

/-- C1 witness: the amended gas-gate claim evaluated on a concrete over-limit
transaction. -/
theorem C1_witness :
    bigTx.gas_limit > mainExec.max_allowed_tx_gas_limit ∧
    mainExec.execute_tx natO bigTx vm0 =
      Except.ok (TxExecutionResult.RejectedByVm Halt.TooBigGasLimit,
        { storage := 0, snapshots := [0] }) :=
  ⟨by decide, C1_gas_gate_rejects mainExec natO bigTx vm0 (by decide)⟩

/-- C2 counterexample: on a concrete command whose reply-slot receiver has
been dropped, the Driver run ends in a panic (the send result is unwrapped)
rather than silently dropping the reply and continuing. -/
theorem C2_counterexample :
    (mainExec.run natO true [Command.StartNextMiniblock env0 false] vm0).2.1.isPanicked
      = true := rfl

/-- C2 (amended): for every command whose reply-slot receiver has been
dropped before the Driver sends the reply, the failed send is unwrapped and
the Driver panics, terminating the loop, rather than silently dropping the
reply. -/
theorem C2_send_failure_panics {σ : Type} (e : BatchExecutor) (O : VmOracle σ)
    (u : Bool) (vm : VmState σ) (tx : Transaction) (env : L2BlockEnv)
    (rest : List Command) :
    (e.run O u (Command.StartNextMiniblock env false :: rest) vm =
      ([], ExitStatus.panicked PanicReason.sendFailed,
        BatchExecutor.start_next_miniblock O env vm)) ∧
    (∀ r vm1, e.execute_tx O tx vm = Except.ok (r, vm1) →
      e.run O u (Command.ExecuteTx tx false :: rest) vm =
        ([], ExitStatus.panicked PanicReason.sendFailed, vm1)) ∧
    (∀ vm1, BatchExecutor.rollback_last_tx vm = Except.ok vm1 →
      e.run O u (Command.RollbackLastTx false :: rest) vm =
        ([], ExitStatus.panicked PanicReason.sendFailed, vm1)) ∧
    (∀ fr vm1, BatchExecutor.finish_batch O vm = Except.ok (fr, vm1) →
      e.run O u (Command.FinishBatch false :: rest) vm =
        ([], ExitStatus.panicked PanicReason.sendFailed, vm1)) := by
  refine ⟨?_, ?_, ?_, ?_⟩
  · simp [BatchExecutor.run]
  · intro r vm1 h
    simp [BatchExecutor.run, h]
  · intro vm1 h
    simp [BatchExecutor.run, h]
  · intro fr vm1 h
    simp [BatchExecutor.run, h]

/-- C2 witness: the amended claim evaluated on a concrete rollback command
with a dropped reply slot. -/
theorem C2_witness :
    mainExec.run natO true [Command.RollbackLastTx false]
        { storage := 3, snapshots := [0] } =
      ([], ExitStatus.panicked PanicReason.sendFailed,
        { storage := 0, snapshots := [] }) :=
  (C2_send_failure_panics mainExec natO true { storage := 3, snapshots := [0] }
      smallTx env0 []).2.2.1 { storage := 0, snapshots := [] } rfl

/-- C3 counterexample: from a concrete Idle entry (stack depth 0, matching
the depth the spec state machine prescribes), an execute-tx command whose
outcome is `RejectedByVm` — an outcome the spec's state machine sends back
to Idle, prescribed depth 0 — exits at stack depth 1. -/
theorem C3_counterexample :
    mainExec.execute_tx natO bigTx vm0 =
      Except.ok (TxExecutionResult.RejectedByVm Halt.TooBigGasLimit,
        { storage := 0, snapshots := [0] }) ∧
    vm0.snapshots.length =
      (specStateAfterExecuteTx
        (TxExecutionResult.RejectedByVm Halt.TooBigGasLimit)).prescribedDepth ∧
    ({ storage := 0, snapshots := [0] } : VmState Nat).snapshots.length ≠
      (specStateAfterExecuteTx
        (TxExecutionResult.RejectedByVm Halt.TooBigGasLimit)).prescribedDepth :=
  ⟨rfl, rfl, by decide⟩

/-- C3 (amended): every execute-tx outcome — including `RejectedByVm` and
bootloader OOG for tx — exits with snapshot-stack depth exactly one greater
than on entry (the outer snapshot always remains, so every execute-tx ends
in Tx-Pending); rollback-last-tx exits one lower and cannot underflow when
the stack is nonempty; start-next-miniblock and finish-batch preserve the
depth; and execute-tx never underflows the stack. -/
theorem C3_snapshot_depth {σ : Type} (e : BatchExecutor) (O : VmOracle σ)
    (tx : Transaction) (env : L2BlockEnv) (vm : VmState σ) :
    (∀ r vm1, e.execute_tx O tx vm = Except.ok (r, vm1) →
      vm1.snapshots.length = vm.snapshots.length + 1) ∧
    (e.execute_tx O tx vm ≠ Except.error PanicReason.snapshotUnderflow) ∧
    (∀ vm1, BatchExecutor.rollback_last_tx vm = Except.ok vm1 →
      vm.snapshots.length = vm1.snapshots.length + 1) ∧
    (vm.snapshots ≠ [] →
      BatchExecutor.rollback_last_tx vm ≠ Except.error PanicReason.snapshotUnderflow) ∧
    ((BatchExecutor.start_next_miniblock O env vm).snapshots.length
      = vm.snapshots.length) ∧
    (∀ fr vm1, BatchExecutor.finish_batch O vm = Except.ok (fr, vm1) →
      vm1.snapshots.length = vm.snapshots.length) := by
  have hmain : (∀ r vm1, e.execute_tx O tx vm = Except.ok (r, vm1) →
      vm1.snapshots.length = vm.snapshots.length + 1) ∧
      (e.execute_tx O tx vm ≠ Except.error PanicReason.snapshotUnderflow) := by
    by_cases hg : tx.gas_limit > e.max_allowed_tx_gas_limit
    · rw [execute_tx_gas_gate e O tx vm hg]
      constructor
      · intro r vm1 h
        simp only [Except.ok.injEq, Prod.mk.injEq] at h
        rw [← h.2]
        simp [VmState.make_snapshot]
      · simp
    · cases hin : e.execute_tx_in_vm O tx vm.make_snapshot with
      | error r' =>
        rw [execute_tx_of_in_vm_error e O tx vm r' hg hin]
        constructor
        · intro r vm1 h
          exact absurd h (by simp)
        · intro h
          simp only [Except.error.injEq] at h
          rw [h] at hin
          exact execute_tx_in_vm_ne_underflow e O tx vm.make_snapshot hin
      | ok p =>
        obtain ⟨⟨t, c, tr⟩, vm2⟩ := p
        have hsnap : vm2.snapshots = vm.storage :: vm.snapshots :=
          execute_tx_in_vm_ok_snapshots e O tx vm.make_snapshot (t, c, tr) vm2 hin
        have hlen : vm2.snapshots.length = vm.snapshots.length + 1 := by
          rw [hsnap]; rfl
        have hfromok : ∀ x : TxExecutionResult,
            (∀ r vm1, (Except.ok (x, vm2) :
                Except PanicReason (TxExecutionResult × VmState σ)) =
                  Except.ok (r, vm1) →
              vm1.snapshots.length = vm.snapshots.length + 1) ∧
            ((Except.ok (x, vm2) :
                Except PanicReason (TxExecutionResult × VmState σ)) ≠
              Except.error PanicReason.snapshotUnderflow) := by
          intro x
          constructor
          · intro r vm1 h
            simp only [Except.ok.injEq, Prod.mk.injEq] at h
            rw [← h.2]
            exact hlen
          · simp
        have hfromerr : ∀ p : PanicReason, p ≠ PanicReason.snapshotUnderflow →
            (∀ r vm1, (Except.error p :
                Except PanicReason (TxExecutionResult × VmState σ)) =
                  Except.ok (r, vm1) →
              vm1.snapshots.length = vm.snapshots.length + 1) ∧
            ((Except.error p :
                Except PanicReason (TxExecutionResult × VmState σ)) ≠
              Except.error PanicReason.snapshotUnderflow) := by
          intro p hp
          exact ⟨fun r vm1 h => absurd h (by simp), by simp [hp]⟩
        cases ht : t.result with
        | success =>
          rw [execute_tx_of_nonhalt e O tx t c tr vm vm2 hg hin (Or.inl ht)]
          cases htip : (O.executeBlockTip vm2.storage).1.result with
          | success =>
            rw [dryRunPhase_tip_success e O tx t c tr vm2 htip]
            exact hfromok _
          | revert =>
            rw [dryRunPhase_tip_bad e O tx t c tr vm2 (Or.inl htip)]
            exact hfromerr _ (by simp)
          | halt reason =>
            by_cases hr : reason = Halt.BootloaderOutOfGas
            · subst hr
              rw [dryRunPhase_tip_oog e O tx t c tr vm2 htip]
              exact hfromok _
            · rw [dryRunPhase_tip_bad e O tx t c tr vm2 (Or.inr ⟨reason, hr, htip⟩)]
              exact hfromerr _ (by simp)
        | revert =>
          rw [execute_tx_of_nonhalt e O tx t c tr vm vm2 hg hin (Or.inr ht)]
          cases htip : (O.executeBlockTip vm2.storage).1.result with
          | success =>
            rw [dryRunPhase_tip_success e O tx t c tr vm2 htip]
            exact hfromok _
          | revert =>
            rw [dryRunPhase_tip_bad e O tx t c tr vm2 (Or.inl htip)]
            exact hfromerr _ (by simp)
          | halt reason =>
            by_cases hr : reason = Halt.BootloaderOutOfGas
            · subst hr
              rw [dryRunPhase_tip_oog e O tx t c tr vm2 htip]
              exact hfromok _
            · rw [dryRunPhase_tip_bad e O tx t c tr vm2 (Or.inr ⟨reason, hr, htip⟩)]
              exact hfromerr _ (by simp)
        | halt reason =>
          by_cases hr : reason = Halt.BootloaderOutOfGas
          · subst hr
            rw [execute_tx_of_halt_oog e O tx t c tr vm vm2 hg hin ht]
            exact hfromok _
          · rw [execute_tx_of_halt_other e O tx t c tr vm vm2 reason hg hin ht hr]
            exact hfromok _
  refine ⟨hmain.1, hmain.2, ?_, ?_, ?_, ?_⟩
  · intro vm1 h
    cases hs : vm.snapshots with
    | nil =>
      simp [BatchExecutor.rollback_last_tx, VmState.rollback_to_the_latest_snapshot,
        hs] at h
    | cons s rest =>
      simp [BatchExecutor.rollback_last_tx, VmState.rollback_to_the_latest_snapshot,
        hs] at h
      rw [← h]
      rfl
  · intro hne h
    cases hs : vm.snapshots with
    | nil => exact hne hs
    | cons s rest =>
      simp [BatchExecutor.rollback_last_tx, VmState.rollback_to_the_latest_snapshot,
        hs] at h
  · rfl
  · intro fr vm1 h
    simp only [BatchExecutor.finish_batch] at h
    by_cases hf :
        ((O.finishBatchVm vm.storage).1.block_tip_execution_result.result.is_failed
          : Bool)
    · rw [if_pos hf] at h
      exact absurd h (by simp)
    · rw [if_neg hf] at h
      simp only [Except.ok.injEq, Prod.mk.injEq] at h
      rw [← h.2]

/-- C3 witness: the amended depth claim evaluated on a concrete successful
execute-tx from depth 0, exiting at depth 1. -/
theorem C3_witness :
    ({ storage := 3, snapshots := [0] } : VmState Nat).snapshots.length =
      vm0.snapshots.length + 1 :=
  (C3_snapshot_depth mainExec natO smallTx env0 vm0).1
    (TxExecutionResult.Success
      { result := ExecutionResult.success, logsAndStats := 2 }
      { l1_gas := 7, execution_metrics := 2 }
      { l1_gas := 3, execution_metrics := 3 }
      { result := ExecutionResult.success, logsAndStats := 3 }
      [3] [2])
    { storage := 3, snapshots := [0] } rfl

/-- C4: if the with-compression attempt fails, `execute_tx_in_vm` rolls back
to the inner snapshot and re-invokes with compression disabled, and its
whole reply-and-state — result, compressed-bytecode list, call trace, and
the final VM state carrying the read and write sets — equals that of an
independent run with compression disabled from the start; a failure of the
no-compression retry is a process abort. -/
theorem C4_compression_retry {σ : Type} (e : BatchExecutor) (O : VmOracle σ)
    (tx : Transaction) (vm : VmState σ) (s1 : σ)
    (h : O.inspectTx vm.storage tx true = InspectOutcome.err s1) :
    e.execute_tx_in_vm O tx vm = e.execute_tx_in_vm_no_compression O tx vm ∧
    (∀ s2, O.inspectTx vm.storage tx false = InspectOutcome.err s2 →
      e.execute_tx_in_vm O tx vm = Except.error PanicReason.compressionRetryFailed) := by
  constructor
  · rw [execute_tx_in_vm_eq, h]
    cases h2 : O.inspectTx vm.storage tx false <;>
      simp [BatchExecutor.execute_tx_in_vm_no_compression, VmState.make_snapshot,
        VmState.pop_snapshot_no_rollback, h2]
  · intro s2 h2
    rw [execute_tx_in_vm_eq, h, h2]

/-- C4 witness: the retry-equivalence claim evaluated on a concrete
transaction whose with-compression attempt fails under the oracle. -/
theorem C4_witness :
    natO.inspectTx vm0.storage oddTx true = InspectOutcome.err 17 ∧
    mainExec.execute_tx_in_vm natO oddTx vm0 =
      mainExec.execute_tx_in_vm_no_compression natO oddTx vm0 :=
  ⟨rfl, (C4_compression_retry mainExec natO oddTx vm0 17 rfl).1⟩

/-- C5: after a transaction result that is not a halt, `execute_tx` proceeds
to the block-tip dry run, which pushes a snapshot, executes the block tip
and restores the snapshot regardless of the outcome (the VM state is
returned exactly as it entered the dry run); a dry-run success yields the
`Success` reply, a bootloader-out-of-gas halt yields
`BootloaderOutOfGasForBlockTip`, and a revert or any other halt is a
process abort. -/
theorem C5_dry_run_classification {σ : Type} (e : BatchExecutor) (O : VmOracle σ)
    (tx : Transaction) (t : VmExecutionResultAndLogs) (c tr : List Nat)
    (vm vm2 : VmState σ) :
    (BatchExecutor.dryrun_block_tip O vm2 =
      Except.ok (((O.executeBlockTip vm2.storage).1,
        BatchExecutor.get_execution_metrics none (O.executeBlockTip vm2.storage).1),
        vm2)) ∧
    ((O.executeBlockTip vm2.storage).1.result = ExecutionResult.success →
      e.executeTxDryRunPhase O tx t c tr vm2 =
        Except.ok (TxExecutionResult.Success t
          (BatchExecutor.get_execution_metrics (some tx) t)
          (BatchExecutor.get_execution_metrics none (O.executeBlockTip vm2.storage).1)
          (O.executeBlockTip vm2.storage).1 c tr, vm2)) ∧
    ((O.executeBlockTip vm2.storage).1.result =
        ExecutionResult.halt Halt.BootloaderOutOfGas →
      e.executeTxDryRunPhase O tx t c tr vm2 =
        Except.ok (TxExecutionResult.BootloaderOutOfGasForBlockTip, vm2)) ∧
    (((O.executeBlockTip vm2.storage).1.result = ExecutionResult.revert ∨
        (∃ reason, reason ≠ Halt.BootloaderOutOfGas ∧
          (O.executeBlockTip vm2.storage).1.result = ExecutionResult.halt reason)) →
      e.executeTxDryRunPhase O tx t c tr vm2 =
        Except.error PanicReason.blockTipRevertOrHalt) ∧
    (tx.gas_limit ≤ e.max_allowed_tx_gas_limit →
      e.execute_tx_in_vm O tx vm.make_snapshot = Except.ok ((t, c, tr), vm2) →
      (t.result = ExecutionResult.success ∨ t.result = ExecutionResult.revert) →
      e.execute_tx O tx vm = e.executeTxDryRunPhase O tx t c tr vm2) := by
  refine ⟨dryrun_block_tip_eq O vm2, ?_, ?_, ?_, ?_⟩
  · exact dryRunPhase_tip_success e O tx t c tr vm2
  · exact dryRunPhase_tip_oog e O tx t c tr vm2
  · exact dryRunPhase_tip_bad e O tx t c tr vm2
  · intro hgas hin hres
    exact execute_tx_of_nonhalt e O tx t c tr vm vm2 (Nat.not_lt.2 hgas) hin hres

/-- C5 witness: the dry-run classification applied at a concrete successful
transaction, whose reply is the `Success` outcome carrying both
result-and-logs pairs and both metrics. -/
theorem C5_witness :
    mainExec.execute_tx natO smallTx vm0 =
      mainExec.executeTxDryRunPhase natO smallTx
        { result := ExecutionResult.success, logsAndStats := 2 } [3] [2]
        { storage := 3, snapshots := [0] } :=
  (C5_dry_run_classification mainExec natO smallTx
      { result := ExecutionResult.success, logsAndStats := 2 } [3] [2] vm0
      { storage := 3, snapshots := [0] }).2.2.2.2 (by decide) rfl (Or.inl rfl)

/-- C6: if the transaction's VM result is a halt, `execute_tx` returns
immediately without running the block-tip dry-run — a
bootloader-out-of-gas halt maps to `BootloaderOutOfGasForTx`, any other
halt reason maps to `RejectedByVm` carrying that reason — while success
and revert results both proceed to the dry-run phase. -/
theorem C6_halt_classification {σ : Type} (e : BatchExecutor) (O : VmOracle σ)
    (tx : Transaction) (t : VmExecutionResultAndLogs) (c tr : List Nat)
    (vm vm2 : VmState σ)
    (hgas : tx.gas_limit ≤ e.max_allowed_tx_gas_limit)
    (hin : e.execute_tx_in_vm O tx vm.make_snapshot = Except.ok ((t, c, tr), vm2)) :
    (t.result = ExecutionResult.halt Halt.BootloaderOutOfGas →
      e.execute_tx O tx vm =
        Except.ok (TxExecutionResult.BootloaderOutOfGasForTx, vm2)) ∧
    (∀ reason, reason ≠ Halt.BootloaderOutOfGas →
      t.result = ExecutionResult.halt reason →
      e.execute_tx O tx vm =
        Except.ok (TxExecutionResult.RejectedByVm reason, vm2)) ∧
    ((t.result = ExecutionResult.success ∨ t.result = ExecutionResult.revert) →
      e.execute_tx O tx vm = e.executeTxDryRunPhase O tx t c tr vm2) := by
  refine ⟨?_, ?_, ?_⟩
  · intro h
    exact execute_tx_of_halt_oog e O tx t c tr vm vm2 (Nat.not_lt.2 hgas) hin h
  · intro reason hne h
    exact execute_tx_of_halt_other e O tx t c tr vm vm2 reason
      (Nat.not_lt.2 hgas) hin h hne
  · intro hres
    exact execute_tx_of_nonhalt e O tx t c tr vm vm2 (Nat.not_lt.2 hgas) hin hres

/-- C6 witness: the halt classification evaluated on a concrete transaction
halting with a non-bootloader reason, rejected with that reason. -/
theorem C6_witness :
    mainExec.execute_tx haltO smallTx vm0 =
      Except.ok (TxExecutionResult.RejectedByVm (Halt.otherReason 3),
        { storage := 1, snapshots := [0] }) :=
  (C6_halt_classification mainExec haltO smallTx
      { result := ExecutionResult.halt (Halt.otherReason 3), logsAndStats := 0 }
      [1] [] vm0 { storage := 1, snapshots := [0] } (by decide) rfl).2.1
    (Halt.otherReason 3) (by decide) rfl

/-- C7: the finish-batch reply is the pair of the VM's terminal batch result
— with a process abort if the block-tip execution result inside it is
failed — and a witness block state that is `some` if and only if
`upload_witness_inputs_to_gcs` is set. -/
theorem C7_finish_batch_reply {σ : Type} (e : BatchExecutor) (O : VmOracle σ)
    (u : Bool) (vm : VmState σ) (rest : List Command) :
    ((O.finishBatchVm vm.storage).1.block_tip_execution_result.result.is_failed = true →
      e.run O u (Command.FinishBatch true :: rest) vm =
        ([], ExitStatus.panicked PanicReason.finishBatchFailed, vm)) ∧
    ((O.finishBatchVm vm.storage).1.block_tip_execution_result.result.is_failed = false →
      e.run O u (Command.FinishBatch true :: rest) vm =
        ([Reply.finished (O.finishBatchVm vm.storage).1
            (if u then some (O.witnessBlockState (O.finishBatchVm vm.storage).2)
             else none)],
          ExitStatus.finishedBatch,
          { storage := (O.finishBatchVm vm.storage).2, snapshots := vm.snapshots }) ∧
      (if u then some (O.witnessBlockState (O.finishBatchVm vm.storage).2)
       else none).isSome = u) := by
  constructor
  · intro h
    simp [BatchExecutor.run, BatchExecutor.finish_batch, h]
  · intro h
    refine ⟨?_, ?_⟩
    · simp [BatchExecutor.run, BatchExecutor.finish_batch, h]
    · cases u <;> simp

/-- C7 witness: the finish-batch reply evaluated on a concrete oracle with
witness uploading requested: the reply carries the terminal batch result
and a populated witness block state. -/
theorem C7_witness :
    mainExec.run natO true [Command.FinishBatch true] vm0 =
      ([Reply.finished
          { block_tip_execution_result :=
              { result := ExecutionResult.success, logsAndStats := 0 }
            restOfBatchResult := 0 } (some 5)],
        ExitStatus.finishedBatch, { storage := 5, snapshots := [] }) :=
  ((C7_finish_batch_reply mainExec natO true vm0 []).2 rfl).1

/-- C8: the Driver loop's behaviour on a command list is unchanged by
anything that follows the first finish-batch command — once finish-batch is
processed the loop returns and no subsequent command is received or handled
— and a send on the command channel after the run has returned fails,
whatever the exit status. -/
theorem C8_finish_is_terminal {σ : Type} (e : BatchExecutor) (O : VmOracle σ)
    (u : Bool) (pre : List Command) (b : Bool) (post : List Command)
    (vm : VmState σ) :
    e.run O u (pre ++ Command.FinishBatch b :: post) vm =
      e.run O u (pre ++ [Command.FinishBatch b]) vm ∧
    (channelAfterRun
      (e.run O u (pre ++ Command.FinishBatch b :: post) vm).2.1).sendOk = false := by
  constructor
  · induction pre generalizing vm with
    | nil => rfl
    | cons cmd rest ih =>
      cases cmd with
      | ExecuteTx tx2 alive =>
        cases h : e.execute_tx O tx2 vm with
        | error r => simp [BatchExecutor.run, h]
        | ok p =>
          obtain ⟨r2, vm1⟩ := p
          cases alive <;> simp [BatchExecutor.run, h, ih]
      | RollbackLastTx alive =>
        cases h : BatchExecutor.rollback_last_tx (σ := σ) vm with
        | error r => simp [BatchExecutor.run, h]
        | ok vm1 =>
          cases alive <;> simp [BatchExecutor.run, h, ih]
      | StartNextMiniblock env2 alive =>
        cases alive <;> simp [BatchExecutor.run, ih]
      | FinishBatch alive =>
        cases h : BatchExecutor.finish_batch O vm with
        | error r => simp [BatchExecutor.run, h]
        | ok p =>
          obtain ⟨fr, vm1⟩ := p
          cases alive <;> simp [BatchExecutor.run, h]
  · rfl

/-- C9: if the command channel closes before any finish-batch command
arrives and no handler or reply send panicked, the Driver exits cleanly
with the unfinished-batch status, having sent exactly one reply per
command received and none for the closure itself. -/
theorem C9_channel_close_clean_exit {σ : Type} (e : BatchExecutor)
    (O : VmOracle σ) (u : Bool) (cmds : List Command) (vm : VmState σ)
    (hnf : cmds.all (fun c => !c.isFinish) = true)
    (hnp : (e.run O u cmds vm).2.1.isPanicked = false) :
    (e.run O u cmds vm).2.1 = ExitStatus.unfinishedExit ∧
    (e.run O u cmds vm).1.length = cmds.length := by
  revert hnf hnp
  induction cmds generalizing vm with
  | nil =>
    intro hnf hnp
    simp [BatchExecutor.run]
  | cons cmd rest ih =>
    intro hnf hnp
    simp only [List.all_cons, Bool.and_eq_true] at hnf
    obtain ⟨h1, h2⟩ := hnf
    cases cmd with
    | FinishBatch alive => simp [Command.isFinish] at h1
    | ExecuteTx tx2 alive =>
      cases h : e.execute_tx O tx2 vm with
      | error r =>
        simp [BatchExecutor.run, h, ExitStatus.isPanicked] at hnp
      | ok p =>
        obtain ⟨r2, vm1⟩ := p
        cases alive with
        | false => simp [BatchExecutor.run, h, ExitStatus.isPanicked] at hnp
        | true =>
          have hnp1 : (e.run O u rest vm1).2.1.isPanicked = false := by
            simpa [BatchExecutor.run, h] using hnp
          have h3 := ih vm1 h2 hnp1
          constructor
          · simpa [BatchExecutor.run, h] using h3.1
          · simp [BatchExecutor.run, h, h3.2]
    | RollbackLastTx alive =>
      cases h : BatchExecutor.rollback_last_tx (σ := σ) vm with
      | error r =>
        simp [BatchExecutor.run, h, ExitStatus.isPanicked] at hnp
      | ok vm1 =>
        cases alive with
        | false => simp [BatchExecutor.run, h, ExitStatus.isPanicked] at hnp
        | true =>
          have hnp1 : (e.run O u rest vm1).2.1.isPanicked = false := by
            simpa [BatchExecutor.run, h] using hnp
          have h3 := ih vm1 h2 hnp1
          constructor
          · simpa [BatchExecutor.run, h] using h3.1
          · simp [BatchExecutor.run, h, h3.2]
    | StartNextMiniblock env2 alive =>
      cases alive with
      | false => simp [BatchExecutor.run, ExitStatus.isPanicked] at hnp
      | true =>
        have hnp1 :
            (e.run O u rest (BatchExecutor.start_next_miniblock O env2 vm)).2.1.isPanicked
              = false := by
          simpa [BatchExecutor.run] using hnp
        have h3 := ih (BatchExecutor.start_next_miniblock O env2 vm) h2 hnp1
        constructor
        · simpa [BatchExecutor.run] using h3.1
        · simp [BatchExecutor.run, h3.2]

/-- C9 witness: a concrete run whose channel closes after one acknowledged
miniblock command exits with the unfinished-batch status and one reply. -/
theorem C9_witness :
    (mainExec.run natO true [Command.StartNextMiniblock env0 true] vm0).2.1 =
      ExitStatus.unfinishedExit ∧
    (mainExec.run natO true [Command.StartNextMiniblock env0 true] vm0).1.length =
      [Command.StartNextMiniblock env0 true].length :=
  C9_channel_close_clean_exit mainExec natO true
    [Command.StartNextMiniblock env0 true] vm0 rfl rfl

end BatchExec
